import Mathlib

/-!
Verification development for the CryptoSensei technical-indicator and
strategy-scoring engine (`src/services/analysis.ts` and
`src/services/strategy/strategyGenerator.ts`).

The source file `analysis.ts` contains two near-identical `AnalysisService`
classes; definitions below are transcribed from the first class
(lines 65-463) unless stated otherwise.  `calculatePriceTargets`
(lines 1688-1841) and the `calculateSMA` it uses (line 1117) belong to the
second class and are transcribed in the `Analysis2` namespace.

Numbers are embedded as `ℚ` for the purely rational computations
(RSI, StochRSI, confidence, market phase, support/resistance, strategy
generation) and as `ℝ` where the source uses `Math.log` / `Math.sqrt`
(volatility, price targets).  A JavaScript `NaN` outcome of the RSI
recurrence (the `0/0` relative-strength case) is represented by `none` of
an `Option ℚ` result; `avgLoss = 0 < avgGain` yields `rs = Infinity` and
hence `RSI = 100`, which is represented by `some 100`.
-/

namespace CryptoSensei

/-- JavaScript `x || d` for a possibly-absent number `x`: `undefined`,
`NaN` and `0` are all falsy, so a supplied `0` falls back to `d` exactly
like an absent value.  Used for `sentiment.newsScore || 50`,
`marketCondition.strength || 0.5`, `keyLevels.support || ...`. -/
def jsOrQ (x : Option ℚ) (d : ℚ) : ℚ :=
  match x with
  | none => d
  | some v => if v = 0 then d else v

/-! ### RSI (analysis.ts lines 79-108)

`calculateRSI` seeds average gain/loss from the first `period` price
deltas and then applies Wilder-style smoothing whose decay constant is the
literal `13` in the source (`avgGain * 13 + difference) / period`),
independent of the `period` argument. -/

/-- One smoothing update of `(avgGain, avgLoss)` by a price delta `d`,
transcribed from lines 95-104 of the source: the decay factor is the
hard-coded literal `13`. -/
def wilderStepCode (period : ℕ) (st : ℚ × ℚ) (d : ℚ) : ℚ × ℚ :=
  if d ≥ 0 then ((st.1 * 13 + d) / period, st.2 * 13 / period)
  else (st.1 * 13 / period, (st.2 * 13 - d) / period)

/-- One smoothing update following the specification text:
`avgGain = (avgGain*(period-1) + gain)/period`,
`avgLoss = (avgLoss*(period-1) + loss)/period`, where the gain (resp.
loss) is `0` when the delta moves the other direction. -/
def wilderStepSpec (period : ℕ) (st : ℚ × ℚ) (d : ℚ) : ℚ × ℚ :=
  if d ≥ 0 then ((st.1 * ((period : ℚ) - 1) + d) / period, st.2 * ((period : ℚ) - 1) / period)
  else (st.1 * ((period : ℚ) - 1) / period, (st.2 * ((period : ℚ) - 1) - d) / period)

/-- Shared RSI skeleton: seed from the first `period` deltas, fold the
remaining deltas with `step`, then map `(avgGain, avgLoss)` to
`100 - 100/(1 + avgGain/avgLoss)`.  A `none` result stands for the
JavaScript `NaN` outcome: the source reads `undefined` array slots when
`prices.length < period + 1` (and divides `0/0` when `period = 0`), and
`rs = 0/0 = NaN` when both running averages are zero; when only
`avgLoss = 0` the JavaScript value is `100 - 100/(1 + Infinity) = 100`. -/
def rsiWith (step : ℕ → ℚ × ℚ → ℚ → ℚ × ℚ) (prices : List ℚ) (period : ℕ) : Option ℚ :=
  if period = 0 ∨ prices.length < period + 1 then none
  else
    let diffs := (prices.zip prices.tail).map fun pr => pr.2 - pr.1
    let gains := ((diffs.take period).map fun d => if d ≥ 0 then d else 0).sum
    let losses := ((diffs.take period).map fun d => if d ≥ 0 then 0 else -d).sum
    let final := (diffs.drop period).foldl (step period) (gains / period, losses / period)
    if final.1 = 0 ∧ final.2 = 0 then none
    else if final.2 = 0 then some 100
    else some (100 - 100 / (1 + final.1 / final.2))

/-- `calculateRSI` (analysis.ts lines 79-108), with the source's
hard-coded decay literal `13`. -/
def calculateRSI (prices : List ℚ) (period : ℕ) : Option ℚ :=
  rsiWith wilderStepCode prices period

/-- Modelled from the spec: the same RSI computation with the smoothing
decay written `period - 1` as the specification's recurrence states. -/
def specRSI (prices : List ℚ) (period : ℕ) : Option ℚ :=
  rsiWith wilderStepSpec prices period

/-! ### Stochastic RSI (analysis.ts lines 210-230) -/

/-- The rolling RSI values of `calculateStochRSI`: for `i` from `period`
to `prices.length - 1` the source computes
`calculateRSI(prices.slice(i - period, i + 1))`, a window of exactly
`period + 1` prices starting at `k = i - period`. -/
def rollingRSI (prices : List ℚ) (period : ℕ) : List (Option ℚ) :=
  (List.range (prices.length - period)).map fun k =>
    calculateRSI ((prices.drop k).take (period + 1)) period

/-- `calculateStochRSI` (analysis.ts lines 210-230).  The source tracks a
running `minRSI`/`maxRSI` seeded with `±Infinity` and returns the neutral
`50` when the range `maxRSI - minRSI` is `0` or non-finite.  The range is
non-finite exactly when the window list is empty (range `-Infinity`) or
some rolling RSI is `NaN` (here: `none`), since `Math.min`/`Math.max`
propagate `NaN`. -/
def calculateStochRSI (prices : List ℚ) (period : ℕ) : ℚ :=
  let opts := rollingRSI prices period
  if none ∈ opts then 50
  else
    match opts.filterMap id with
    | [] => 50
    | v :: rest =>
      let mn := rest.foldl min v
      let mx := rest.foldl max v
      let lastRSI := rest.getLastD v
      if mx - mn = 0 then 50 else ((lastRSI - mn) / (mx - mn)) * 100

/-! ### Market phase (analysis.ts lines 265-280) -/

/-- The four-way branch of `determineMarketPhase` on the three boolean
comparisons `(price > ma50, price > ma200, ma50 > ma200)`. -/
def phaseOfBools (priceAboveMA50 priceAboveMA200 ma50AboveMA200 : Bool) : String :=
  if priceAboveMA50 && priceAboveMA200 && ma50AboveMA200 then "Bull Market"
  else if !priceAboveMA50 && !priceAboveMA200 && !ma50AboveMA200 then "Bear Market"
  else if priceAboveMA200 && !priceAboveMA50 then "Correction"
  else "Accumulation"

/-- `determineMarketPhase` (analysis.ts lines 265-280): classifies from the
last price of the series and the two moving averages. -/
def determineMarketPhase (prices : List ℚ) (ma50 ma200 : ℚ) : String :=
  let currentPrice := prices.getLastD 0
  phaseOfBools (decide (currentPrice > ma50)) (decide (currentPrice > ma200))
    (decide (ma50 > ma200))

/-! ### Support / resistance (analysis.ts lines 173-182) -/

/-- `findSupportResistance` (analysis.ts lines 173-182): sort ascending and
read the entries at indices `floor(n*0.25)` and `floor(n*0.75)` (exact
for IEEE doubles, hence `n / 4` and `3 * n / 4` in natural division). -/
def findSupportResistance (prices : List ℚ) : ℚ × ℚ :=
  let sortedPrices := prices.insertionSort (· ≤ ·)
  (sortedPrices.getD (prices.length / 4) 0, sortedPrices.getD (3 * prices.length / 4) 0)

/-! ### Confidence scorer (analysis.ts lines 403-463) -/

/-- The `macd` record argument of `calculateConfidence`. -/
structure MacdSnapshot where
  value : ℚ
  signal : ℚ
  histogram : ℚ

/-- The externally supplied sentiment record; scores may be absent
(`undefined` in JavaScript), and the source reads them through
`sentiment.newsScore || 50`. -/
structure SentimentInput where
  newsScore : Option ℚ
  socialScore : Option ℚ

/-- `calculateConfidence` (analysis.ts lines 403-463): weighted blend of
RSI / MACD / volume / sentiment sub-scores, multiplied by a volatility
factor and clamped to `[30, 95]`.  The `volumeR` argument is the source's
`volumeRatio` parameter. -/
def calculateConfidence (rsi : ℚ) (macd : MacdSnapshot) (volumeR : ℚ)
    (sentiment : SentimentInput) (volatilityIndex : ℚ) : ℚ :=
  let rsiConfidence : ℚ := if rsi > 70 ∨ rsi < 30 then 90 else if rsi > 60 ∨ rsi < 40 then 75 else 50
  let macdConfidence : ℚ := min 100 (|macd.histogram| / max 0.01 |macd.signal| * 100)
  let volumeConfidence : ℚ :=
    if volumeR > 2 then 90 else if volumeR > 1.5 then 80 else if volumeR > 1 then 70
    else if volumeR > 0.7 then 50 else 30
  let sentimentConfidence : ℚ := (jsOrQ sentiment.newsScore 50 + jsOrQ sentiment.socialScore 50) / 2
  let volatilityFactor : ℚ := max 0.5 (1 - volatilityIndex / 100)
  let weightedConfidence : ℚ :=
    (rsiConfidence * 0.25 + macdConfidence * 0.25 + volumeConfidence * 0.20 +
      sentimentConfidence * 0.20) * volatilityFactor
  min 95 (max 30 weightedConfidence)

/-! ### Annualized volatility (analysis.ts lines 282-290) -/

/-- The log-return series `ln(p[i+1]/p[i])` built by
`prices.slice(1).map((price, i) => Math.log(price / prices[i]))`. -/
noncomputable def logReturns (prices : List ℝ) : List ℝ :=
  (prices.zip prices.tail).map fun pr => Real.log (pr.2 / pr.1)

/-- `calculateVolatility` (analysis.ts lines 282-290): the square root of
the mean of the squared log returns (no mean subtraction in the source),
annualized by `sqrt(365)` and scaled to percent. -/
noncomputable def calculateVolatility (prices : List ℝ) : ℝ :=
  let returns := logReturns prices
  Real.sqrt ((returns.map fun ret => ret ^ 2).sum / returns.length) * Real.sqrt 365 * 100

/-- Arithmetic mean of a list of reals. -/
noncomputable def listMean (xs : List ℝ) : ℝ := xs.sum / xs.length

/-- Modelled from the spec: the (population) standard deviation of a list,
`sqrt(Σ(x - mean)² / n)`. -/
noncomputable def listStdDev (xs : List ℝ) : ℝ :=
  Real.sqrt ((xs.map fun x => (x - listMean xs) ^ 2).sum / xs.length)

/-- Modelled from the spec: "standard deviation of log returns
(`ln(p[i]/p[i-1])`) over the available window, multiplied by `sqrt(365)`
and by 100". -/
noncomputable def specVolatility (prices : List ℝ) : ℝ :=
  listStdDev (logReturns prices) * Real.sqrt 365 * 100

/-- Root mean square of a list, written as an indexed `Finset.range` sum:
`sqrt((Σ_{i<n} xs[i]²) / n)`. -/
noncomputable def rootMeanSquare (xs : List ℝ) : ℝ :=
  Real.sqrt ((∑ i in Finset.range xs.length, xs.getD i 0 ^ 2) / xs.length)

namespace Analysis2

/-! Transcriptions from the second `AnalysisService` class of analysis.ts
(lines 1001-1842), which owns `calculatePriceTargets`. -/

/-- `calculateSMA` of the second class (analysis.ts lines 1117-1119):
`prices.slice(-period).reduce((a, b) => a + b, 0) / period`.  Note the
divisor is `period` itself, not the number of elements actually taken, and
there is no empty-input guard (unlike the first class's variant). -/
noncomputable def calculateSMA (prices : List ℝ) (period : ℕ) : ℝ :=
  (prices.drop (prices.length - period)).sum / period

/-- The annualized volatility recomputed inside `calculatePriceTargets`
(analysis.ts lines 1696-1702), identical to `calculateVolatility` except
for the missing `* 100`. -/
noncomputable def annualizedVol (prices : List ℝ) : ℝ :=
  let dailyReturns := (prices.zip prices.tail).map fun pr => Real.log (pr.2 / pr.1)
  Real.sqrt ((dailyReturns.map fun ret => ret ^ 2).sum / dailyReturns.length) * Real.sqrt 365

/-- One low/high price range. -/
structure TargetRange where
  low : ℝ
  high : ℝ

/-- The three timeframe ranges of `calculatePriceTargets`. -/
structure PriceTargets where
  shortTerm : TargetRange
  midTerm : TargetRange
  longTerm : TargetRange

/-- `calculatePriceTargets` (analysis.ts lines 1688-1841), restricted to
the low/high bounds of the three timeframes.  The `volatility` argument is
accepted by the source but never used in the bounds; the per-timeframe
`confidence` computation (lines 1713-1764) is not modelled here since the
claims under study concern only the price ranges. -/
noncomputable def calculatePriceTargets (currentPrice : ℝ) (prices : List ℝ) (volatility : ℝ)
    (support resistance : ℝ) : PriceTargets :=
  let _ := volatility
  let annVol := annualizedVol prices
  let sma20 := calculateSMA prices 20
  let sma50 := calculateSMA prices 50
  let momentum := (sma20 - sma50) / sma50
  let momentumBias := momentum * currentPrice * 0.1
  let volatilityRange24 := currentPrice * annVol * 0.1
  let supportRange24 := |currentPrice - support| * 0.2
  let resistanceRange24 := |resistance - currentPrice| * 0.2
  let volatilityRange7 := currentPrice * annVol * 0.2
  let supportRange7 := |currentPrice - support| * 0.4
  let resistanceRange7 := |resistance - currentPrice| * 0.4
  let volatilityRange30 := currentPrice * annVol * 0.3
  let supportRange30 := |currentPrice - support| * 0.6
  let resistanceRange30 := |resistance - currentPrice| * 0.6
  { shortTerm :=
      { low := max support (currentPrice - volatilityRange24 - supportRange24 + momentumBias)
        high := min resistance (currentPrice + volatilityRange24 + resistanceRange24 + momentumBias) }
    midTerm :=
      { low := max (support * 0.95)
          (currentPrice - volatilityRange7 - supportRange7 + momentumBias * 2)
        high := min (resistance * 1.05)
          (currentPrice + volatilityRange7 + resistanceRange7 + momentumBias * 2) }
    longTerm :=
      { low := max (support * 0.9)
          (currentPrice - volatilityRange30 - supportRange30 + momentumBias * 3)
        high := min (resistance * 1.1)
          (currentPrice + volatilityRange30 + resistanceRange30 + momentumBias * 3) } }

end Analysis2

namespace Strategy

/-! Transcription of `src/services/strategy/strategyGenerator.ts`.
JavaScript objects passed through the `any`-typed parameters are modelled
by the record shapes the generator actually reads.  The unused
`sentimentAnalysis`, `riskAnalysis` and `predictions` fields of the input
are omitted (destructured but never used by the source).  String
interpolation of numbers uses Lean's `ℚ` rendering; only the structure of
the produced strings matters to the claims, never their exact digits. -/

/-- JavaScript `x || d` for a plain number `x` (`0` is falsy). -/
def jsOrNum (x d : ℚ) : ℚ := if x = 0 then d else x

/-- JavaScript `Number(x.toFixed(2))`: round to 2 decimal places
(ties away from zero for positive values, as `Math`/`toFixed` do). -/
def jsToFixed2 (x : ℚ) : ℚ := (round (x * 100) : ℤ) / 100

/-- JavaScript `(x).toFixed(1)` as a number: round to 1 decimal place. -/
def jsToFixed1 (x : ℚ) : ℚ := (round (x * 10) : ℤ) / 10

/-- JavaScript `s.includes(pat)` for a non-empty pattern: `splitOn`
produces more than one chunk exactly when `pat` occurs in `s`. -/
def jsIncludes (s pat : String) : Bool := (s.splitOn pat).length != 1

/-- `technicalSignals.trend`. -/
structure TrendInfo where
  primary : String
  strength : ℚ

/-- `technicalSignals.momentum.rsi`; the source guards the value with
`typeof rsi?.value === 'number' ? rsi.value : 50`, so the value may be
absent. -/
structure RsiInfo where
  value : Option ℚ
  signal : String

/-- `technicalSignals.momentum.macd`. -/
structure MacdInfo where
  value : ℚ
  signal : String

/-- `technicalSignals.momentum`. -/
structure MomentumInfo where
  rsi : RsiInfo
  macd : MacdInfo

/-- `technicalSignals.volatility`. -/
structure VolatilityInfo where
  current : ℚ

/-- The `technicalSignals` object. -/
structure TechnicalSignals where
  trend : TrendInfo
  momentum : MomentumInfo
  volatility : VolatilityInfo

/-- `marketCondition.keyLevels`; the source reads these through
`keyLevels.support || currentPrice * 0.95` (zero falls back). -/
structure KeyLevels where
  support : ℚ
  resistance : ℚ

/-- The `marketCondition` object; `strength` is read through
`marketCondition.strength || 0.5` except in `calculateConfidence`, which
uses it raw. -/
structure MarketCondition where
  phase : String
  strength : ℚ
  keyLevels : KeyLevels

/-- The full input of `generateStrategy`. -/
structure StrategyInput where
  currentPrice : ℚ
  marketCondition : MarketCondition
  technicalSignals : TechnicalSignals

/-- `entries` of the produced strategy. -/
structure Entries where
  conservative : ℚ
  moderate : ℚ
  aggressive : ℚ
deriving Repr, DecidableEq

/-- `stopLoss` tiers of the produced strategy. -/
structure StopLossLevels where
  tight : ℚ
  normal : ℚ
  wide : ℚ
deriving Repr, DecidableEq

/-- `targets` of the produced strategy. -/
structure TargetLevels where
  primary : ℚ
  secondary : ℚ
  final : ℚ
deriving Repr, DecidableEq

/-- The `TradingStrategy` result record. -/
structure TradingStrategy where
  recommendation : String
  confidence : ℚ
  entries : Entries
  stopLoss : StopLossLevels
  targets : TargetLevels
  timeframe : String
  rationale : List String
deriving Repr, DecidableEq

/-- `calculateConfidence` (strategyGenerator.ts lines 151-161): weighted
blend of trend/market/momentum strengths, clamped to `[30, 95]`.  Note it
reads `marketCondition.strength` and `rsi.value` raw (an absent RSI value
compares false against 50, i.e. contributes the 40 branch). -/
def calculateConfidence (technicalSignals : TechnicalSignals)
    (marketCondition : MarketCondition) : ℚ :=
  let trendStrength := technicalSignals.trend.strength * 100
  let marketStrength := marketCondition.strength * 100
  let momentumStrength : ℚ :=
    (match technicalSignals.momentum.rsi.value with
      | some v => if v > 50 then 60 else 40
      | none => 40) +
    (if technicalSignals.momentum.macd.value > 0 then 10 else -10)
  min 95 (max 30 (trendStrength * 0.4 + marketStrength * 0.3 + momentumStrength * 0.3))

/-- `determineRecommendation` (strategyGenerator.ts lines 108-149): an
ordered first-match rule list, then a `+8` MACD-agreement bonus for
Buy/Sell, then `min(95, Math.round(confidence * 100) / 100)`. -/
def determineRecommendation (technicalSignals : TechnicalSignals)
    (marketCondition : MarketCondition) : String × ℚ :=
  let trend := technicalSignals.trend.primary.toLower
  let marketPhase := marketCondition.phase.toLower
  let rsiValue := technicalSignals.momentum.rsi.value.getD 50
  let macdSignal := technicalSignals.momentum.macd.signal.toLower
  let baseConfidence : ℚ := (round (calculateConfidence technicalSignals marketCondition) : ℤ)
  let confidence0 := min 95 (max 35 baseConfidence)
  let pair : String × ℚ :=
    if decide (rsiValue > 70) && jsIncludes trend "bullish" then
      ("Take Profit", max confidence0 (min 90 rsiValue))
    else if decide (rsiValue < 30) && jsIncludes trend "bearish" then
      ("Buy", max confidence0 (min 90 (100 - rsiValue)))
    else if jsIncludes trend "bullish" && (jsIncludes macdSignal "bullish" || decide (rsiValue > 55)) then
      ("Buy", max confidence0 65)
    else if jsIncludes trend "bearish" && (jsIncludes macdSignal "bearish" || decide (rsiValue < 45)) then
      ("Sell", max confidence0 65)
    else if jsIncludes marketPhase "accumulation" then ("Buy", max confidence0 60)
    else if jsIncludes marketPhase "distribution" then ("Sell", max confidence0 60)
    else ("Hold", confidence0)
  let withBonus : ℚ :=
    if jsIncludes macdSignal "bullish" && decide (pair.1 = "Buy") then pair.2 + 8
    else if jsIncludes macdSignal "bearish" && decide (pair.1 = "Sell") then pair.2 + 8
    else pair.2
  (pair.1, min 95 ((round (withBonus * 100) : ℤ) / 100))

/-- `calculateConservativeEntry` (strategyGenerator.ts lines 163-177). -/
def calculateConservativeEntry (currentPrice : ℚ) (technicalSignals : TechnicalSignals)
    (keyLevels : KeyLevels) : ℚ :=
  let support := jsOrNum keyLevels.support (currentPrice * 0.95)
  let volatility := technicalSignals.volatility.current / 100
  max support (currentPrice * (1 - min 0.05 volatility))

/-- `calculateAggressiveEntry` (strategyGenerator.ts lines 179-193). -/
def calculateAggressiveEntry (currentPrice : ℚ) (technicalSignals : TechnicalSignals)
    (keyLevels : KeyLevels) : ℚ :=
  let resistance := jsOrNum keyLevels.resistance (currentPrice * 1.05)
  let volatility := technicalSignals.volatility.current / 100
  min (currentPrice * (1 + min 0.03 volatility)) resistance

/-- Stop-loss tier selector. -/
inductive StopKind | tight | normal | wide

/-- `calculateStopLossDistance` (strategyGenerator.ts lines 81-89). -/
def calculateStopLossDistance (marketCondition : MarketCondition) (kind : StopKind) : ℚ :=
  let volatility := jsOrNum marketCondition.strength 0.5
  let multiplier : ℚ := match kind with | .tight => 2 | .normal => 3 | .wide => 5
  volatility * multiplier / 100

/-- Target tier selector. -/
inductive TargetKind | primary | secondary | final

/-- `calculateTargetDistance` (strategyGenerator.ts lines 91-106). -/
def calculateTargetDistance (marketCondition : MarketCondition) (kind : TargetKind) : ℚ :=
  let trend := marketCondition.phase.toLower
  let strength := jsOrNum marketCondition.strength 0.5
  let baseMultiplier : ℚ := match kind with | .primary => 3 | .secondary => 5 | .final => 8
  let trendMultiplier : ℚ :=
    if trend = "bull market" then 1.5 else if trend = "bear market" then 0.5 else 1
  baseMultiplier * strength * trendMultiplier / 100

/-- `determineTimeframe` (strategyGenerator.ts lines 203-222). -/
def determineTimeframe (technicalSignals : TechnicalSignals)
    (marketCondition : MarketCondition) : String :=
  let volatility := technicalSignals.volatility.current
  let marketPhase := marketCondition.phase.toLower
  let strength := jsOrNum marketCondition.strength 0.5
  if marketPhase = "bull market" ∧ strength > 0.7 then
    if volatility > 50 then "Short-term" else "Medium-term"
  else if marketPhase = "bear market" ∧ strength > 0.7 then "Long-term"
  else if marketPhase = "accumulation" then "Medium-term"
  else if marketPhase = "distribution" then "Short-term"
  else if volatility > 50 then "Short-term"
  else if volatility < 20 then "Long-term"
  else "Medium-term"

/-- `generateRationale` (strategyGenerator.ts lines 224-246).  The
`if (marketCondition.keyLevels)` truthiness test is always true for the
object-valued field modelled here. -/
def generateRationale (technicalSignals : TechnicalSignals)
    (marketCondition : MarketCondition) : List String :=
  let base :=
    [s!"Market Phase: {marketCondition.phase} with {jsToFixed1 (marketCondition.strength * 100)}% strength",
     s!"RSI: {technicalSignals.momentum.rsi.signal}",
     s!"MACD: {technicalSignals.momentum.macd.signal}",
     s!"Support at ${jsToFixed2 marketCondition.keyLevels.support}",
     s!"Resistance at ${jsToFixed2 marketCondition.keyLevels.resistance}"]
  if technicalSignals.trend.strength > 0.7 then
    base ++ [s!"Strong {technicalSignals.trend.primary} trend"]
  else base

/-- The `try` block of `generateStrategy` (strategyGenerator.ts lines
12-74).  The only `throw` site reachable in this typed model is the
current-price guard `if (!currentPrice || isNaN(currentPrice)) throw new
Error('Invalid current price')`; for a number-typed price the falsy/NaN
test is `currentPrice = 0` here. -/
def tryGenerateStrategy (d : StrategyInput) : Except String TradingStrategy :=
  if d.currentPrice = 0 then Except.error "Invalid current price"
  else
    let currentPrice := d.currentPrice
    let marketCondition := d.marketCondition
    let technicalSignals := d.technicalSignals
    let conservative := calculateConservativeEntry currentPrice technicalSignals marketCondition.keyLevels
    let aggressive := calculateAggressiveEntry currentPrice technicalSignals marketCondition.keyLevels
    let aggressiveEntry :=
      let a := jsToFixed2 aggressive
      if a = 0 then jsToFixed2 (currentPrice * 1.02) else a
    let entries : Entries :=
      { conservative := jsToFixed2 conservative
        moderate := jsToFixed2 currentPrice
        aggressive := aggressiveEntry }
    let rc := determineRecommendation technicalSignals marketCondition
    let stopLoss : StopLossLevels :=
      { tight := jsToFixed2 (currentPrice * (1 - calculateStopLossDistance marketCondition .tight))
        normal := jsToFixed2 (currentPrice * (1 - calculateStopLossDistance marketCondition .normal))
        wide := jsToFixed2 (currentPrice * (1 - calculateStopLossDistance marketCondition .wide)) }
    let targets : TargetLevels :=
      { primary := jsToFixed2 (currentPrice * (1 + calculateTargetDistance marketCondition .primary))
        secondary := jsToFixed2 (currentPrice * (1 + calculateTargetDistance marketCondition .secondary))
        final := jsToFixed2 (currentPrice * (1 + calculateTargetDistance marketCondition .final)) }
    Except.ok
      { recommendation := s!"{rc.1} ({rc.2}%)"
        confidence := rc.2
        entries := entries
        stopLoss := stopLoss
        targets := targets
        timeframe := determineTimeframe technicalSignals marketCondition
        rationale := generateRationale technicalSignals marketCondition }

/-- `getDefaultStrategy` (strategyGenerator.ts lines 248-271): the fixed
fallback strategy built from the placeholder price 76000. -/
def getDefaultStrategy : TradingStrategy :=
  let defaultPrice : ℚ := 76000
  { recommendation := "Hold"
    confidence := 50
    entries :=
      { conservative := defaultPrice * 0.98
        moderate := defaultPrice
        aggressive := defaultPrice * 1.02 }
    stopLoss :=
      { tight := defaultPrice * 0.95
        normal := defaultPrice * 0.97
        wide := defaultPrice * 0.93 }
    targets :=
      { primary := defaultPrice * 1.03
        secondary := defaultPrice * 1.05
        final := defaultPrice * 1.08 }
    timeframe := "Medium-term"
    rationale := ["Using default strategy due to insufficient data"] }

/-- `generateStrategy` (strategyGenerator.ts lines 4-79): run the `try`
body; the `catch` turns any thrown error into `getDefaultStrategy`. -/
def generateStrategy (d : StrategyInput) : TradingStrategy :=
  match tryGenerateStrategy d with
  | Except.ok s => s
  | Except.error _ => getDefaultStrategy

end Strategy

/-! ## Claim theorems -/

/-- C2 counterexample.  The claim says "all remaining five combinations map
to 'Accumulation'", but after the rows (T,T,T), (F,F,F) and (F,T,*) of the
decision table only four of the eight boolean combinations remain, and
indeed exactly four combinations map to "Accumulation" — not five. -/
theorem accumulation_combos_ne_five :
    ((Finset.univ : Finset (Bool × Bool × Bool)).filter
      fun t => phaseOfBools t.1 t.2.1 t.2.2 = "Accumulation").card ≠ 5 := by
  decide

/-- C2 (amended): `determineMarketPhase` factors through the total boolean
table `phaseOfBools` of (price>MA50, price>MA200, MA50>MA200), and the
table maps (T,T,T) to "Bull Market", (F,F,F) to "Bear Market", (F,T,*) to
"Correction", and all remaining four combinations to "Accumulation". -/
theorem determineMarketPhase_table :
    (∀ (prices : List ℚ) (ma50 ma200 : ℚ),
      determineMarketPhase prices ma50 ma200 =
        phaseOfBools (decide (prices.getLastD 0 > ma50))
          (decide (prices.getLastD 0 > ma200)) (decide (ma50 > ma200))) ∧
    phaseOfBools true true true = "Bull Market" ∧
    phaseOfBools false false false = "Bear Market" ∧
    phaseOfBools false true true = "Correction" ∧
    phaseOfBools false true false = "Correction" ∧
    phaseOfBools true true false = "Accumulation" ∧
    phaseOfBools true false true = "Accumulation" ∧
    phaseOfBools true false false = "Accumulation" ∧
    phaseOfBools false false true = "Accumulation" :=
  ⟨fun _ _ _ => rfl, by decide⟩

/-- C6: for all (finite, here rational) inputs the confidence scorer's
result lies within `[30, 95]` — the final clamp
`Math.min(95, Math.max(30, weightedConfidence))` guarantees it. -/
theorem calculateConfidence_mem_Icc (rsi : ℚ) (macd : MacdSnapshot) (volumeR : ℚ)
    (sentiment : SentimentInput) (volatilityIndex : ℚ) :
    30 ≤ calculateConfidence rsi macd volumeR sentiment volatilityIndex ∧
    calculateConfidence rsi macd volumeR sentiment volatilityIndex ≤ 95 := by
  unfold calculateConfidence
  exact ⟨le_min (by norm_num) (le_max_left _ _), min_le_left _ _⟩

/-- C9: a supplied `newsScore` or `socialScore` equal to `0` is replaced by
the default `50` (the `|| 50` fallback treats `0` as falsy), so it scores
exactly like an absent score. -/
theorem calculateConfidence_zero_score_as_absent :
    ∀ (rsi : ℚ) (macd : MacdSnapshot) (volumeR : ℚ) (s : Option ℚ) (volatilityIndex : ℚ),
      jsOrQ (some 0) 50 = jsOrQ none 50 ∧
      calculateConfidence rsi macd volumeR ⟨some 0, s⟩ volatilityIndex =
        calculateConfidence rsi macd volumeR ⟨none, s⟩ volatilityIndex ∧
      calculateConfidence rsi macd volumeR ⟨s, some 0⟩ volatilityIndex =
        calculateConfidence rsi macd volumeR ⟨s, none⟩ volatilityIndex := by
  intro rsi macd volumeR s volatilityIndex
  refine ⟨rfl, ?_, ?_⟩ <;> simp [calculateConfidence, jsOrQ]

/-- Helper: in an ascending-sorted rational list, `getD` is monotone in
the index (for in-bounds indices). -/
theorem sorted_getD_mono (l : List ℚ) (hs : List.Sorted (· ≤ ·) l) (i j : ℕ)
    (hij : i ≤ j) (hj : j < l.length) : l.getD i 0 ≤ l.getD j 0 := by
  have hi : i < l.length := lt_of_le_of_lt hij hj
  rw [List.getD_eq_getElem l 0 hi, List.getD_eq_getElem l 0 hj]
  have hfin : (⟨i, hi⟩ : Fin l.length) ≤ ⟨j, hj⟩ := by simpa using hij
  simpa [List.get_eq_getElem] using @List.Sorted.rel_get_of_le ℚ (· ≤ ·) _ l hs ⟨i, hi⟩ ⟨j, hj⟩ hfin

/-- C10: for a non-empty price list the support level (ascending-sorted
list at index `n/4`) never exceeds the resistance level (index `3n/4`). -/
theorem findSupportResistance_le (prices : List ℚ) (h : prices ≠ []) :
    (findSupportResistance prices).1 ≤ (findSupportResistance prices).2 := by
  unfold findSupportResistance
  dsimp only
  have hn : 0 < prices.length := List.length_pos.mpr h
  have hlen : (prices.insertionSort (· ≤ ·)).length = prices.length :=
    List.length_insertionSort _ _
  have h3 : 3 * prices.length / 4 < prices.length := by
    apply Nat.div_lt_of_lt_mul; omega
  have h1 : prices.length / 4 ≤ 3 * prices.length / 4 := by
    apply Nat.div_le_div_right; omega
  exact sorted_getD_mono _ (List.sorted_insertionSort _ _) _ _ h1 (by omega)

/-- C10 witness at the concrete list `[3, 1, 2]`. -/
theorem findSupportResistance_le_witness :
    ([3, 1, 2] : List ℚ) ≠ [] ∧
    (findSupportResistance [3, 1, 2]).1 ≤ (findSupportResistance [3, 1, 2]).2 :=
  ⟨by simp, findSupportResistance_le [3, 1, 2] (by simp)⟩

/-- C1 (code bug): for a zero current price, `generateStrategy` does not
surface its own `throw new Error('Invalid current price')` to the caller —
the throw happens inside the `try` whose blanket `catch` replaces every
error with the fixed default strategy.  The first conjunct shows the body
does raise the explicit error; the second shows the caller nevertheless
receives `getDefaultStrategy`. -/
theorem generateStrategy_zero_price_swallowed :
    Strategy.tryGenerateStrategy
      ⟨0, ⟨"Bull Market", 0.8, ⟨95, 110⟩⟩,
        ⟨⟨"bullish", 0.8⟩, ⟨⟨some 60, "Bullish momentum building"⟩,
          ⟨1, "Strong bullish momentum"⟩⟩, ⟨30⟩⟩⟩ =
      Except.error "Invalid current price" ∧
    Strategy.generateStrategy
      ⟨0, ⟨"Bull Market", 0.8, ⟨95, 110⟩⟩,
        ⟨⟨"bullish", 0.8⟩, ⟨⟨some 60, "Bullish momentum building"⟩,
          ⟨1, "Strong bullish momentum"⟩⟩, ⟨30⟩⟩⟩ =
      Strategy.getDefaultStrategy := by
  have h : Strategy.tryGenerateStrategy
      ⟨0, ⟨"Bull Market", 0.8, ⟨95, 110⟩⟩,
        ⟨⟨"bullish", 0.8⟩, ⟨⟨some 60, "Bullish momentum building"⟩,
          ⟨1, "Strong bullish momentum"⟩⟩, ⟨30⟩⟩⟩ =
      Except.error "Invalid current price" := by
    simp [Strategy.tryGenerateStrategy]
  exact ⟨h, by simp [Strategy.generateStrategy, h]⟩

/-- C8: whenever the strategy generator's `try` body raises any error, the
caller-facing `generateStrategy` returns the fixed default strategy
(`Hold`, confidence 50, placeholder levels) instead of the error. -/
theorem generateStrategy_catches_errors (d : Strategy.StrategyInput) (e : String)
    (h : Strategy.tryGenerateStrategy d = Except.error e) :
    Strategy.generateStrategy d = Strategy.getDefaultStrategy := by
  simp [Strategy.generateStrategy, h]

/-- C8 witness: a concrete input (absent RSI value, accumulation phase,
zero price) on which the body errors and the default strategy is
returned. -/
theorem generateStrategy_catches_errors_witness :
    Strategy.tryGenerateStrategy
      ⟨0, ⟨"Accumulation", 0.4, ⟨40, 60⟩⟩,
        ⟨⟨"neutral", 0.3⟩, ⟨⟨none, "Neutral"⟩, ⟨-1, "Bearish momentum"⟩⟩, ⟨10⟩⟩⟩ =
      Except.error "Invalid current price" ∧
    Strategy.generateStrategy
      ⟨0, ⟨"Accumulation", 0.4, ⟨40, 60⟩⟩,
        ⟨⟨"neutral", 0.3⟩, ⟨⟨none, "Neutral"⟩, ⟨-1, "Bearish momentum"⟩⟩, ⟨10⟩⟩⟩ =
      Strategy.getDefaultStrategy := by
  have h : Strategy.tryGenerateStrategy
      ⟨0, ⟨"Accumulation", 0.4, ⟨40, 60⟩⟩,
        ⟨⟨"neutral", 0.3⟩, ⟨⟨none, "Neutral"⟩, ⟨-1, "Bearish momentum"⟩⟩, ⟨10⟩⟩⟩ =
      Except.error "Invalid current price" := by
    simp [Strategy.tryGenerateStrategy]
  exact ⟨h, generateStrategy_catches_errors _ _ h⟩

/-- C5 counterexample.  The smoothing recurrence in the source multiplies
by the literal `13`, not by `period - 1`, so for `period = 2` the code's
RSI of `[0, 1, 0, 1]` is `375/7` while the claimed
`(avg*(period-1) + delta)/period` recurrence yields `75`. -/
theorem calculateRSI_ne_spec_at_period_two :
    calculateRSI [0, 1, 0, 1] 2 ≠ specRSI [0, 1, 0, 1] 2 := by
  norm_num [calculateRSI, specRSI, rsiWith, wilderStepCode, wilderStepSpec,
    List.zip, List.zipWith]

/-- C5 (amended): for the default `period = 14` — the only period with
which `calculateRSI` is invoked, and the only one for which the hard-coded
decay `13` equals `period - 1` — the code's RSI agrees with the
specification's seeded-then-smoothed recurrence on every price series. -/
theorem calculateRSI_eq_spec_at_period14 (prices : List ℚ) :
    calculateRSI prices 14 = specRSI prices 14 := by
  have hstep : wilderStepCode 14 = wilderStepSpec 14 := by
    funext st d
    unfold wilderStepCode wilderStepSpec
    norm_num
  unfold calculateRSI specRSI rsiWith
  rw [hstep]

/-- C7: whenever the rolling RSI window of `calculateStochRSI` has a zero
or non-finite min–max range — the window list is empty, contains a `NaN`
RSI (`none`), or has equal maximum and minimum — the function returns
exactly the neutral midpoint 50. -/
theorem calculateStochRSI_degenerate_eq_50 (prices : List ℚ) (period : ℕ)
    (h : rollingRSI prices period = [] ∨ none ∈ rollingRSI prices period ∨
      ((rollingRSI prices period).filterMap id).max? =
        ((rollingRSI prices period).filterMap id).min?) :
    calculateStochRSI prices period = 50 := by
  unfold calculateStochRSI
  by_cases hn : none ∈ rollingRSI prices period
  · simp [hn]
  · rcases h with h | h | h
    · simp [hn, h]
    · exact absurd h hn
    · simp only [hn, if_false]
      cases hv : (rollingRSI prices period).filterMap id with
      | nil => simp
      | cons v rest =>
        rw [hv] at h
        have hminmax : rest.foldl max v = rest.foldl min v := by
          have h1 : (v :: rest).max? = some (rest.foldl max v) := rfl
          have h2 : (v :: rest).min? = some (rest.foldl min v) := rfl
          rw [h1, h2] at h
          exact Option.some.inj h
        simp [hminmax]

/-- C7 witness: sixteen constant prices give two rolling windows whose RSI
is the JavaScript `NaN` (modelled `none`), a non-finite range, and the
StochRSI is 50. -/
theorem calculateStochRSI_degenerate_witness :
    (none ∈ rollingRSI (List.replicate 16 (100 : ℚ)) 14) ∧
    calculateStochRSI (List.replicate 16 (100 : ℚ)) 14 = 50 := by
  have h : none ∈ rollingRSI (List.replicate 16 (100 : ℚ)) 14 := by
    norm_num [rollingRSI, calculateRSI, rsiWith, wilderStepCode, List.range_succ,
      List.replicate, List.zip, List.zipWith]
  exact ⟨h, calculateStochRSI_degenerate_eq_50 _ _ (Or.inr (Or.inl h))⟩

/-- Helper: the list sum of squares equals the indexed `Finset.range`
sum of squares. -/
theorem sum_map_sq_eq_range_sum (xs : List ℝ) :
    (xs.map fun x => x ^ 2).sum = ∑ i in Finset.range xs.length, xs.getD i 0 ^ 2 := by
  induction xs with
  | nil => simp
  | cons x xs ih =>
    rw [List.map_cons, List.sum_cons, List.length_cons, Finset.sum_range_succ']
    simp only [List.getD_cons_succ, List.getD_cons_zero, ih]
    ring

/-- C4 counterexample.  The source computes `sqrt(Σ ret² / n)` without
subtracting the mean, so it is not the standard deviation of the log
returns: on `[1, e]` the single log return is `1`, the standard deviation
is `0`, yet `calculateVolatility` returns `sqrt(365)·100 ≠ 0`. -/
theorem calculateVolatility_ne_specVolatility :
    calculateVolatility [1, Real.exp 1] ≠ specVolatility [1, Real.exp 1] := by
  have h1 : calculateVolatility [1, Real.exp 1] = Real.sqrt 365 * 100 := by
    norm_num [calculateVolatility, logReturns, List.zip, List.zipWith, Real.log_exp]
  have h2 : specVolatility [1, Real.exp 1] = 0 := by
    norm_num [specVolatility, listStdDev, listMean, logReturns, List.zip, List.zipWith,
      Real.log_exp, Real.sqrt_zero]
  rw [h1, h2]
  have : 0 < Real.sqrt 365 := Real.sqrt_pos.mpr (by norm_num)
  positivity

/-- C4 (amended): for every price series with at least two elements,
`calculateVolatility` equals the root mean square of the log returns
(`sqrt(Σ ln(p[i+1]/p[i])² / n)`, no mean subtraction) multiplied by
`sqrt(365)` and by 100. -/
theorem calculateVolatility_eq_rms (prices : List ℝ) (_h : 2 ≤ prices.length) :
    calculateVolatility prices =
      rootMeanSquare (logReturns prices) * Real.sqrt 365 * 100 := by
  unfold calculateVolatility rootMeanSquare
  dsimp only
  rw [sum_map_sq_eq_range_sum]

/-- C4 witness at the concrete series `[1, e]`. -/
theorem calculateVolatility_eq_rms_witness :
    2 ≤ ([1, Real.exp 1] : List ℝ).length ∧
    calculateVolatility [1, Real.exp 1] =
      rootMeanSquare (logReturns [1, Real.exp 1]) * Real.sqrt 365 * 100 :=
  ⟨by norm_num, calculateVolatility_eq_rms [1, Real.exp 1] (by norm_num)⟩

/-- C3 counterexample.  With `currentPrice = 50` below the supplied support
`80` (and volatility argument `0 ≥ 0`), the clamp
`Math.max(support, ...)` pushes the 24H low to `80 > 50`, so
low ≤ current price fails. -/
theorem priceTargets_low_can_exceed_price :
    ¬ ((Analysis2.calculatePriceTargets 50 [100, 100] 0 80 90).shortTerm.low ≤ 50) := by
  have h : (Analysis2.calculatePriceTargets 50 [100, 100] 0 80 90).shortTerm.low = 80 := by
    norm_num [Analysis2.calculatePriceTargets, Analysis2.annualizedVol,
      Analysis2.calculateSMA, List.zip, List.zipWith, Real.log_one, Real.sqrt_zero]
  rw [h]; norm_num

/-- C3 (amended): the three target ranges bracket the current price —
`low ≤ currentPrice ≤ high` for 24H/7D/30D — provided the series has at
least two positive prices, `0 ≤ support ≤ currentPrice ≤ resistance`, and
the 20- and 50-period SMAs agree (so the momentum bias vanishes).  Without
those hypotheses the support/resistance clamps or the momentum bias can
push a bound past the current price. -/
theorem priceTargets_bracket (currentPrice : ℝ) (prices : List ℝ)
    (volatility support resistance : ℝ)
    (_hlen : 2 ≤ prices.length) (_hpos : ∀ p ∈ prices, 0 < p)
    (hs0 : 0 ≤ support) (hsc : support ≤ currentPrice) (hcr : currentPrice ≤ resistance)
    (hsma : Analysis2.calculateSMA prices 20 = Analysis2.calculateSMA prices 50) :
    ((Analysis2.calculatePriceTargets currentPrice prices volatility support resistance).shortTerm.low
        ≤ currentPrice ∧
      currentPrice ≤
        (Analysis2.calculatePriceTargets currentPrice prices volatility support resistance).shortTerm.high) ∧
    ((Analysis2.calculatePriceTargets currentPrice prices volatility support resistance).midTerm.low
        ≤ currentPrice ∧
      currentPrice ≤
        (Analysis2.calculatePriceTargets currentPrice prices volatility support resistance).midTerm.high) ∧
    ((Analysis2.calculatePriceTargets currentPrice prices volatility support resistance).longTerm.low
        ≤ currentPrice ∧
      currentPrice ≤
        (Analysis2.calculatePriceTargets currentPrice prices volatility support resistance).longTerm.high) := by
  have hcp0 : 0 ≤ currentPrice := le_trans hs0 hsc
  have hr0 : 0 ≤ resistance := le_trans hcp0 hcr
  have hav : 0 ≤ Analysis2.annualizedVol prices := by
    unfold Analysis2.annualizedVol
    exact mul_nonneg (Real.sqrt_nonneg _) (Real.sqrt_nonneg _)
  have hvr : 0 ≤ currentPrice * Analysis2.annualizedVol prices :=
    mul_nonneg hcp0 hav
  have hsr : 0 ≤ |currentPrice - support| := abs_nonneg _
  have hrr : 0 ≤ |resistance - currentPrice| := abs_nonneg _
  unfold Analysis2.calculatePriceTargets
  dsimp only
  rw [hsma, sub_self, zero_div, zero_mul, zero_mul]
  refine ⟨⟨max_le hsc (by nlinarith), le_min hcr (by nlinarith)⟩,
    ⟨max_le (by nlinarith) (by nlinarith), le_min (by nlinarith) (by nlinarith)⟩,
    ⟨max_le (by nlinarith) (by nlinarith), le_min (by nlinarith) (by nlinarith)⟩⟩

/-- C3 witness: fifty constant prices at 100 with
support = currentPrice = resistance = 100 satisfy every hypothesis (the
two SMAs are both 100), and all three ranges bracket the price. -/
theorem priceTargets_bracket_witness :
    2 ≤ (List.replicate 50 (100 : ℝ)).length ∧
    Analysis2.calculateSMA (List.replicate 50 (100 : ℝ)) 20 =
      Analysis2.calculateSMA (List.replicate 50 (100 : ℝ)) 50 ∧
    ((Analysis2.calculatePriceTargets 100 (List.replicate 50 (100 : ℝ)) 0 100 100).shortTerm.low
        ≤ 100 ∧
      (100 : ℝ) ≤
        (Analysis2.calculatePriceTargets 100 (List.replicate 50 (100 : ℝ)) 0 100 100).shortTerm.high) ∧
    ((Analysis2.calculatePriceTargets 100 (List.replicate 50 (100 : ℝ)) 0 100 100).midTerm.low
        ≤ 100 ∧
      (100 : ℝ) ≤
        (Analysis2.calculatePriceTargets 100 (List.replicate 50 (100 : ℝ)) 0 100 100).midTerm.high) ∧
    ((Analysis2.calculatePriceTargets 100 (List.replicate 50 (100 : ℝ)) 0 100 100).longTerm.low
        ≤ 100 ∧
      (100 : ℝ) ≤
        (Analysis2.calculatePriceTargets 100 (List.replicate 50 (100 : ℝ)) 0 100 100).longTerm.high) := by
  have hsma : Analysis2.calculateSMA (List.replicate 50 (100 : ℝ)) 20 =
      Analysis2.calculateSMA (List.replicate 50 (100 : ℝ)) 50 := by
    simp [Analysis2.calculateSMA, List.drop_replicate, List.sum_replicate]
    norm_num
  have hpos : ∀ p ∈ List.replicate 50 (100 : ℝ), 0 < p := by
    intro p hp
    rw [List.eq_of_mem_replicate hp]
    norm_num
  exact ⟨by norm_num, hsma,
    priceTargets_bracket 100 (List.replicate 50 100) 0 100 100 (by norm_num) hpos
      (by norm_num) (by norm_num) (by norm_num) hsma⟩

end CryptoSensei
